import Mathlib

/-!
Verification of the image-transform core of the snapchat-formater repository
(`server.py`, function `process_image`).

The transform is embedded shallowly at the level of raster metadata: an image
is its width, height, color mode and the outcome of reading its orientation
tag.  Pixel contents are irrelevant to every property below (they concern
dimensions, modes and the crop rectangle), so they are not modelled.
Python float arithmetic on the ratio 9/16 = 0.5625 is embedded as exact
rational arithmetic: 0.5625 is a dyadic rational, so `h * 0.5625` is exact
for every raster height `h < 2^49`, `w / 0.5625` is correctly rounded to the
exact quotient `16w/9` whose truncation agrees with `⌊16w/9⌋` for every
`w < 2^49`, and the comparison `w/h > 0.5625` agrees with the exact rational
comparison for all `h ≤ 2^49`; all conceivable raster sizes are far below
these bounds.
-/

/-- Pillow color modes distinguished by `process_image` (lines 78-87): the
three modes composited onto a white background, RGB itself, and the rest,
which the code converts with `convert('RGB')`. -/
inductive Mode : Type
  | RGB : Mode
  | RGBA : Mode
  | P : Mode
  | LA : Mode
  | L : Mode
  | other : String → Mode
  deriving DecidableEq

/-- Number of color channels of a mode (RGB = 3, RGBA = 4, LA = 2,
P and L = 1 band). -/
def Mode.channels : Mode → Nat
  | Mode.RGB => 3
  | Mode.RGBA => 4
  | Mode.P => 1
  | Mode.LA => 2
  | Mode.L => 1
  | Mode.other _ => 3

/-- Outcome of the EXIF-orientation lookup in lines 61-75: the lookup can
raise (caught `AttributeError`/`KeyError`/`IndexError`), `_getexif()` can
return `None`, the EXIF dict can lack the orientation key (`exif.get`
returns `None`), or it yields an orientation value. -/
inductive ExifRead : Type
  | raises : ExifRead
  | noExif : ExifRead
  | noTag : ExifRead
  | tag : Nat → ExifRead
  deriving DecidableEq

/-- A decoded Pillow raster, as far as `process_image` observes it. -/
structure PILImage : Type where
  width : Nat
  height : Nat
  mode : Mode
  exif : ExifRead
  deriving DecidableEq

/-- `img.rotate(180, expand=True)` (line 70): size and mode preserved. -/
def rotate180 (img : PILImage) : PILImage := img

/-- `img.rotate(270, expand=True)` (line 72): width and height swap. -/
def rotate270expand (img : PILImage) : PILImage :=
  { img with width := img.height, height := img.width }

/-- `img.rotate(90, expand=True)` (line 74): width and height swap. -/
def rotate90expand (img : PILImage) : PILImage :=
  { img with width := img.height, height := img.width }

/-- The EXIF-orientation correction of lines 60-76: orientation value 3
rotates by 180, 6 by 270, 8 by 90 (all with `expand=True`); any other
value, a missing tag, a missing EXIF block, or an exception while reading
leaves the image untouched. -/
def applyExifOrientation (img : PILImage) : PILImage :=
  match img.exif with
  | ExifRead.tag 3 => rotate180 img
  | ExifRead.tag 6 => rotate270expand img
  | ExifRead.tag 8 => rotate90expand img
  | _ => img

/-- Color-mode normalization of lines 78-87: RGBA, P and LA are pasted onto
a white `Image.new('RGB', img.size)` background (P after an intermediate
conversion to RGBA); any other non-RGB mode goes through `convert('RGB')`.
The size is preserved and the result is always RGB. -/
def toRGB (img : PILImage) : PILImage :=
  match img.mode with
  | Mode.RGBA => { img with mode := Mode.RGB }
  | Mode.P => { img with mode := Mode.RGB }
  | Mode.LA => { img with mode := Mode.RGB }
  | Mode.RGB => img
  | _ => { img with mode := Mode.RGB }

def TARGET_WIDTH : Nat := 1080

def TARGET_HEIGHT : Nat := 1920

def TARGET_RATIO : ℚ := 9 / 16

def JPEG_QUALITY : Nat := 92

/-- The crop rectangle `(crop_x, crop_y, crop_width, crop_height)`. -/
structure CropRect : Type where
  x : Int
  y : Int
  width : Int
  height : Int
  deriving DecidableEq

/-- Crop-region computation of lines 91-112.  Python's `int()` truncates
toward zero, which on the non-negative values `orig_height * 0.5625` and
`orig_width / 0.5625` coincides with the floor used here; Python's `//` is
floor division, embedded as `Int.fdiv`. -/
def cropRect (orig_width orig_height : Nat) (crop_mode : String) : CropRect :=
  let img_ratio : ℚ := (orig_width : ℚ) / (orig_height : ℚ)
  if img_ratio > TARGET_RATIO then
    let crop_height : Int := orig_height
    let crop_width : Int := ⌊(orig_height : ℚ) * TARGET_RATIO⌋
    let crop_y : Int := 0
    let crop_x : Int := Int.fdiv ((orig_width : Int) - crop_width) 2
    { x := crop_x, y := crop_y, width := crop_width, height := crop_height }
  else
    let crop_width : Int := orig_width
    let crop_height : Int := ⌊(orig_width : ℚ) / TARGET_RATIO⌋
    let crop_x : Int := 0
    let crop_y : Int :=
      if crop_mode = "top" then 0
      else if crop_mode = "bottom" then (orig_height : Int) - crop_height
      else Int.fdiv ((orig_height : Int) - crop_height) 2
    { x := crop_x, y := crop_y, width := crop_width, height := crop_height }

/-- `img.crop((x, y, x + w, y + h))` (line 115): the result has exactly the
box's size (our boxes always have non-negative extent) and the source's
mode. -/
def cropImage (img : PILImage) (r : CropRect) : PILImage :=
  { width := r.width.toNat, height := r.height.toNat,
    mode := img.mode, exif := img.exif }

/-- `cropped.resize((TARGET_WIDTH, TARGET_HEIGHT), LANCZOS)` (line 118):
the result has exactly the requested size and the source's mode. -/
def resizeImage (img : PILImage) (w h : Nat) : PILImage :=
  { width := w, height := h, mode := img.mode, exif := img.exif }

/-- An encoded JPEG, as far as the pipeline observes it: the dimensions and
channel count it encodes, and its byte length.  The byte length of a real
JPEG stream depends on the entropy coder; no claim depends on its value, so
it is modelled as the raw sample count. -/
structure JPEGData : Type where
  width : Nat
  height : Nat
  nchannels : Nat
  byteLength : Nat
  deriving DecidableEq

/-- `result.save(output, format='JPEG', quality=92, optimize=True)`
(line 122). -/
def saveJPEG (img : PILImage) (_quality : Nat) : JPEGData :=
  { width := img.width, height := img.height,
    nchannels := img.mode.channels,
    byteLength := img.width * img.height * img.mode.channels }

/-- Decoding a JPEG stream: yields a raster of the encoded size; a
3-channel JPEG decodes to RGB, a 1-channel one to L. -/
def loadJPEG (d : JPEGData) : PILImage :=
  { width := d.width, height := d.height,
    mode := if d.nchannels = 3 then Mode.RGB
            else if d.nchannels = 1 then Mode.L
            else Mode.other "CMYK",
    exif := ExifRead.noExif }

/-- The metadata record built in lines 126-133. -/
structure TransformInfo : Type where
  original_width : Nat
  original_height : Nat
  crop_mode : String
  result_width : Nat
  result_height : Nat
  file_size : Nat
  deriving DecidableEq

/-- Failures of `process_image`.  `Image.open` on undecodable bytes raises;
the embedding receives the decode outcome as an `Option PILImage`. -/
inductive ProcessError : Type
  | decodeError : ProcessError
  deriving DecidableEq

/-- `process_image` (lines 46-135): decode, EXIF-orientation correction,
RGB normalization, crop-region computation, crop, resize to 1080x1920,
JPEG encoding, metadata assembly. -/
def process_image (decoded : Option PILImage) (crop_mode : String := "center") :
    Except ProcessError (JPEGData × TransformInfo) :=
  match decoded with
  | none => Except.error ProcessError.decodeError
  | some img0 =>
    let img1 := applyExifOrientation img0
    let img : PILImage := toRGB img1
    let orig_width := img.width
    let orig_height := img.height
    let r := cropRect orig_width orig_height crop_mode
    let cropped := cropImage img r
    let result := resizeImage cropped TARGET_WIDTH TARGET_HEIGHT
    let jpeg_data := saveJPEG result JPEG_QUALITY
    let info : TransformInfo :=
      { original_width := orig_width
        original_height := orig_height
        crop_mode := crop_mode
        result_width := TARGET_WIDTH
        result_height := TARGET_HEIGHT
        file_size := jpeg_data.byteLength }
    Except.ok (jpeg_data, info)

/-- The crop-region formula as claim C1 words it, in pure integer
arithmetic: the branch condition `w/h > 9/16` as `16*w > 9*h`,
`crop_width = ⌊h * 9/16⌋` as `9*h/16`, and `crop_height = ⌊w / (9/16)⌋` as
`16*w/9`, with the y-offset selected by the crop mode. -/
def cropRectSpec (w h : Nat) (crop_mode : String) : CropRect :=
  if 16 * w > 9 * h then
    { x := ((w - 9 * h / 16) / 2 : Nat), y := 0,
      width := (9 * h / 16 : Nat), height := h }
  else
    { x := 0,
      y := if crop_mode = "top" then 0
           else if crop_mode = "bottom" then ((h - 16 * w / 9 : Nat) : Int)
           else (((h - 16 * w / 9) / 2 : Nat) : Int),
      width := w, height := (16 * w / 9 : Nat) }

lemma floor_natCast_div (a b : Nat) :
    ⌊(a : ℚ) / (b : ℚ)⌋ = ((a / b : Nat) : Int) := by
  rcases Nat.eq_zero_or_pos b with hb | hb
  · subst hb; simp
  · have hb0 : (0 : ℚ) < (b : ℚ) := by exact_mod_cast hb
    rw [Int.floor_eq_iff]
    constructor
    · rw [le_div_iff₀ hb0]
      push_cast
      exact_mod_cast Nat.div_mul_le_self a b
    · rw [div_lt_iff₀ hb0]
      have h1 : a < (a / b + 1) * b := by
        calc a = b * (a / b) + a % b := (Nat.div_add_mod a b).symm
          _ < b * (a / b) + b := Nat.add_lt_add_left (Nat.mod_lt a hb) _
          _ = (a / b + 1) * b := by ring
      push_cast
      exact_mod_cast h1

lemma floor_mul_ratio (h : Nat) :
    ⌊(h : ℚ) * TARGET_RATIO⌋ = ((9 * h / 16 : Nat) : Int) := by
  have he : (h : ℚ) * TARGET_RATIO = ((9 * h : Nat) : ℚ) / ((16 : Nat) : ℚ) := by
    simp only [ TARGET_RATIO]
    push_cast
    ring
  rw [he, floor_natCast_div]

lemma floor_div_ratio (w : Nat) :
    ⌊(w : ℚ) / TARGET_RATIO⌋ = ((16 * w / 9 : Nat) : Int) := by
  have he : (w : ℚ) / TARGET_RATIO = ((16 * w : Nat) : ℚ) / ((9 : Nat) : ℚ) := by
    simp only [ TARGET_RATIO]
    push_cast
    rw [div_div_eq_mul_div]
    ring
  rw [he, floor_natCast_div]

lemma img_ratio_gt_iff (w h : Nat) (hh : 0 < h) :
    ((w : ℚ) / (h : ℚ) > TARGET_RATIO) ↔ 9 * h < 16 * w := by
  have hq : (0 : ℚ) < (h : ℚ) := by exact_mod_cast hh
  simp only [ TARGET_RATIO, gt_iff_lt]
  rw [div_lt_div_iff₀ (by norm_num) hq, mul_comm (w : ℚ) 16]
  exact_mod_cast Iff.rfl

lemma fdiv_natCast (a b : Nat) :
    Int.fdiv (a : Int) (b : Int) = ((a / b : Nat) : Int) :=
  (Int.ofNat_fdiv a b).symm

lemma fdiv_two_natCast (a : Nat) :
    Int.fdiv (a : Int) 2 = ((a / 2 : Nat) : Int) :=
  (Int.ofNat_fdiv a 2).symm

lemma toRGB_mode (img : PILImage) : (toRGB img).mode = Mode.RGB := by
  rcases img with ⟨w0, h0, m0, e0⟩
  cases m0 <;> rfl

lemma toRGB_width (img : PILImage) : (toRGB img).width = img.width := by
  rcases img with ⟨w0, h0, m0, e0⟩
  cases m0 <;> rfl

lemma toRGB_height (img : PILImage) : (toRGB img).height = img.height := by
  rcases img with ⟨w0, h0, m0, e0⟩
  cases m0 <;> rfl

lemma cropRect_eq_spec (w h : Nat) (hh : 1 ≤ h) (m : String) :
    cropRect w h m = cropRectSpec w h m := by
  have hcond := img_ratio_gt_iff w h hh
  simp only [cropRect, cropRectSpec]
  by_cases hc : 9 * h < 16 * w
  · rw [if_pos (hcond.mpr hc), if_pos (by omega : 16 * w > 9 * h)]
    rw [floor_mul_ratio h]
    have hx : (w : ℤ) - ((9 * h / 16 : Nat) : ℤ) = ((w - 9 * h / 16 : Nat) : ℤ) := by
      omega
    rw [hx, fdiv_two_natCast]
  · rw [if_neg (fun hgt => hc (hcond.mp hgt)), if_neg (by omega : ¬ 16 * w > 9 * h)]
    rw [floor_div_ratio w]
    have hy : (h : ℤ) - ((16 * w / 9 : Nat) : ℤ) = ((h - 16 * w / 9 : Nat) : ℤ) := by
      omega
    by_cases hm1 : m = "top"
    · rw [if_pos hm1, if_pos hm1]
    · rw [if_neg hm1, if_neg hm1]
      by_cases hm2 : m = "bottom"
      · rw [if_pos hm2, if_pos hm2, hy]
      · rw [if_neg hm2, if_neg hm2, hy, fdiv_two_natCast]

lemma process_image_some (img0 : PILImage) (m : String) :
    ∃ jd info, process_image (some img0) m = Except.ok (jd, info) ∧
      jd.width = 1080 ∧ jd.height = 1920 ∧ jd.nchannels = 3 ∧
      info.original_width = (toRGB (applyExifOrientation img0)).width ∧
      info.original_height = (toRGB (applyExifOrientation img0)).height ∧
      info.crop_mode = m := by
  refine ⟨_, _, rfl, rfl, rfl, ?_, rfl, rfl, rfl⟩
  show (toRGB (applyExifOrientation img0)).mode.channels = 3
  rw [toRGB_mode]
  rfl

/-- Claim C1: for every decoded source raster of width `w ≥ 1` and height
`h ≥ 1` and every crop mode, `process_image` computes the crop rectangle by
the spec's piecewise formula: wider than 9/16 means full height, width
`⌊h * 9/16⌋`, horizontally centered, `y = 0`; otherwise full width, height
`⌊w / (9/16)⌋`, `x = 0`, and `y` selected by the crop mode ("top" gives 0,
"bottom" gives `h - crop_height`, anything else centers). -/
theorem C1_cropRect_follows_spec (w h : Nat) (m : String)
    (hw : 1 ≤ w) (hh : 1 ≤ h) :
    cropRect w h m = cropRectSpec w h m :=
  cropRect_eq_spec w h hh m

/-- Witness for C1 at the spec's worked example 4000x3000, mode "center":
crop rectangle (1156, 0, 1687, 3000). -/
theorem C1_witness :
    1 ≤ 4000 ∧ 1 ≤ 3000 ∧
      cropRect 4000 3000 "center" = cropRectSpec 4000 3000 "center" ∧
      cropRectSpec 4000 3000 "center" =
        { x := 1156, y := 0, width := 1687, height := 3000 } :=
  ⟨by norm_num, by norm_num,
    C1_cropRect_follows_spec 4000 3000 "center" (by norm_num) (by norm_num),
    by decide⟩

/-- Claim C2: whenever `process_image` succeeds, the encoded result is
exactly 1080 wide by 1920 high with exactly 3 channels, regardless of the
input's dimensions, color mode, or crop mode. -/
theorem C2_result_always_1080x1920_rgb (decoded : Option PILImage)
    (m : String) (out : JPEGData × TransformInfo)
    (hok : process_image decoded m = Except.ok out) :
    out.1.width = 1080 ∧ out.1.height = 1920 ∧ out.1.nchannels = 3 := by
  cases decoded with
  | none => simp [process_image] at hok
  | some img0 =>
    obtain ⟨jd, info, heq, hw1, hh1, hn1, _, _, _⟩ := process_image_some img0 m
    rw [heq] at hok
    injection hok with h2
    subst h2
    exact ⟨hw1, hh1, hn1⟩

/-- Witness for C2 at a concrete 100x200 RGB input. -/
theorem C2_witness :
    ((⟨1080, 1920, 3, 6220800⟩, ⟨100, 200, "center", 1080, 1920, 6220800⟩) :
        JPEGData × TransformInfo).1.width = 1080 ∧
      ((⟨1080, 1920, 3, 6220800⟩, ⟨100, 200, "center", 1080, 1920, 6220800⟩) :
        JPEGData × TransformInfo).1.height = 1920 ∧
      ((⟨1080, 1920, 3, 6220800⟩, ⟨100, 200, "center", 1080, 1920, 6220800⟩) :
        JPEGData × TransformInfo).1.nchannels = 3 :=
  C2_result_always_1080x1920_rgb (some ⟨100, 200, Mode.RGB, ExifRead.noExif⟩)
    "center" _ rfl

/-- Claim C3 counterexample: at a 2x3 source (wider than 9:16 since
32 > 27) the crop rectangle is 1 wide by 3 high, and 1/3 is not 9/16: the
crop ratio is not exactly 9/16 for every source. -/
theorem C3_counterexample :
    ¬ (((cropRect 2 3 "center").width : ℚ) / ((cropRect 2 3 "center").height : ℚ)
      = 9 / 16) := by
  have h : cropRect 2 3 "center" = { x := 0, y := 0, width := 1, height := 3 } := by
    rw [cropRect_eq_spec 2 3 (by norm_num) "center"]
    decide
  rw [h]
  norm_num

/-- Claim C3 amended: the crop rectangle's ratio equals 9/16 only up to the
integer truncation used to build it: `|16 * crop_width - 9 * crop_height|`
is at most 15 (and the ratio is exact when the truncation is exact, e.g.
whenever 16 divides h in the wide branch). -/
theorem C3_amended_ratio_within_truncation (w h : Nat) (m : String)
    (hw : 1 ≤ w) (hh : 1 ≤ h) :
    |16 * (cropRect w h m).width - 9 * (cropRect w h m).height| ≤ 15 := by
  rw [cropRect_eq_spec w h hh m]
  rw [abs_le]
  unfold cropRectSpec
  by_cases hc : 16 * w > 9 * h
  · rw [if_pos hc]
    simp only []
    omega
  · rw [if_neg hc]
    simp only []
    omega

/-- Witness for C3 at the spec's worked example 1000x2000, mode "bottom":
the crop is 1000x1777 and |16*1000 - 9*1777| = 7 ≤ 15. -/
theorem C3_witness :
    1 ≤ 1000 ∧ 1 ≤ 2000 ∧
      |16 * (cropRect 1000 2000 "bottom").width
        - 9 * (cropRect 1000 2000 "bottom").height| ≤ 15 :=
  ⟨by norm_num, by norm_num,
    C3_amended_ratio_within_truncation 1000 2000 "bottom" (by norm_num) (by norm_num)⟩

/-- Claim C4 counterexample: line 129 stores the `crop_mode` argument
verbatim in the metadata, so an unrecognized mode such as "diagonal" is
reported as-is, not normalized to "center". -/
theorem C4_counterexample :
    (process_image (some ⟨120, 80, Mode.RGB, ExifRead.noExif⟩) "diagonal").toOption.map
        (fun out => out.2.crop_mode) = some "diagonal" ∧
      "diagonal" ≠ "center" ∧ "diagonal" ≠ "top" ∧ "diagonal" ≠ "bottom" :=
  ⟨rfl, by decide, by decide, by decide⟩

/-- Claim C4 amended: the `crop_mode` field of the returned metadata is the
`crop_mode` argument echoed verbatim; an unrecognized value behaves as
"center" for cropping but is reported exactly as passed, so the metadata
does not always name the crop mode actually used. -/
theorem C4_amended_crop_mode_verbatim (decoded : Option PILImage) (m : String)
    (out : JPEGData × TransformInfo)
    (hok : process_image decoded m = Except.ok out) :
    out.2.crop_mode = m := by
  cases decoded with
  | none => simp [process_image] at hok
  | some img0 =>
    obtain ⟨jd, info, heq, _, _, _, _, _, hcm⟩ := process_image_some img0 m
    rw [heq] at hok
    injection hok with h2
    subst h2
    exact hcm

/-- Witness for the amended C4 at a concrete 50x50 L input with mode
"weird". -/
theorem C4_witness :
    ((⟨1080, 1920, 3, 6220800⟩, ⟨50, 50, "weird", 1080, 1920, 6220800⟩) :
        JPEGData × TransformInfo).2.crop_mode = "weird" :=
  C4_amended_crop_mode_verbatim (some ⟨50, 50, Mode.L, ExifRead.noTag⟩) "weird" _ rfl

/-- Claim C5: for every source raster of size at least 1x1 and every crop
mode, `process_image` succeeds, and decoding the returned JPEG yields a
1080x1920 3-channel (RGB) image. -/
theorem C5_round_trip (img0 : PILImage) (m : String)
    (hw : 1 ≤ img0.width) (hh : 1 ≤ img0.height) :
    ∃ out, process_image (some img0) m = Except.ok out ∧
      (loadJPEG out.1).width = 1080 ∧ (loadJPEG out.1).height = 1920 ∧
      (loadJPEG out.1).mode = Mode.RGB := by
  obtain ⟨jd, info, heq, hw1, hh1, hn1, _, _, _⟩ := process_image_some img0 m
  refine ⟨(jd, info), heq, ?_, ?_, ?_⟩
  · simpa [loadJPEG] using hw1
  · simpa [loadJPEG] using hh1
  · simp [loadJPEG, hn1]

/-- Witness for C5 at the degenerate-but-valid 1x1 RGB input. -/
theorem C5_witness :
    1 ≤ (⟨1, 1, Mode.RGB, ExifRead.noExif⟩ : PILImage).width ∧
      1 ≤ (⟨1, 1, Mode.RGB, ExifRead.noExif⟩ : PILImage).height ∧
      ∃ out, process_image (some ⟨1, 1, Mode.RGB, ExifRead.noExif⟩) "center" =
          Except.ok out ∧
        (loadJPEG out.1).width = 1080 ∧ (loadJPEG out.1).height = 1920 ∧
        (loadJPEG out.1).mode = Mode.RGB :=
  ⟨by decide, by decide,
    C5_round_trip ⟨1, 1, Mode.RGB, ExifRead.noExif⟩ "center" (by decide) (by decide)⟩

/-- Claim C6 counterexample: a 100x200 raster carrying EXIF orientation 6
is rotated (with width and height swapping) before line 90 records the
dimensions, so the metadata reports 200x100, not the decoded raster's
100x200. -/
theorem C6_counterexample :
    (process_image (some ⟨100, 200, Mode.RGB, ExifRead.tag 6⟩) "center").toOption.map
        (fun out => (out.2.original_width, out.2.original_height)) = some (200, 100) ∧
      (⟨100, 200, Mode.RGB, ExifRead.tag 6⟩ : PILImage).width = 100 ∧
      (⟨100, 200, Mode.RGB, ExifRead.tag 6⟩ : PILImage).height = 200 ∧
      ((200, 100) : Nat × Nat) ≠ (100, 200) :=
  ⟨rfl, rfl, rfl, by decide⟩

/-- Claim C6 amended: `original_width`/`original_height` equal the raster
dimensions after the EXIF orientation correction (which swaps width and
height for orientations 6 and 8), regardless of crop mode; they equal the
decoded raster's dimensions only when no 90-degree rotation was applied. -/
theorem C6_amended_metadata_dims_after_orientation (img0 : PILImage)
    (m : String) (out : JPEGData × TransformInfo)
    (hok : process_image (some img0) m = Except.ok out) :
    out.2.original_width = (applyExifOrientation img0).width ∧
      out.2.original_height = (applyExifOrientation img0).height := by
  obtain ⟨jd, info, heq, _, _, _, how, hoh, _⟩ := process_image_some img0 m
  rw [heq] at hok
  injection hok with h2
  subst h2
  rw [toRGB_width] at how
  rw [toRGB_height] at hoh
  exact ⟨how, hoh⟩

/-- Witness for the amended C6 at a 30x40 RGBA input with orientation 8. -/
theorem C6_witness :
    ((⟨1080, 1920, 3, 6220800⟩, ⟨40, 30, "top", 1080, 1920, 6220800⟩) :
          JPEGData × TransformInfo).2.original_width =
        (applyExifOrientation ⟨30, 40, Mode.RGBA, ExifRead.tag 8⟩).width ∧
      ((⟨1080, 1920, 3, 6220800⟩, ⟨40, 30, "top", 1080, 1920, 6220800⟩) :
          JPEGData × TransformInfo).2.original_height =
        (applyExifOrientation ⟨30, 40, Mode.RGBA, ExifRead.tag 8⟩).height :=
  C6_amended_metadata_dims_after_orientation ⟨30, 40, Mode.RGBA, ExifRead.tag 8⟩
    "top" _ rfl

/-- Claim C7: when the orientation tag is absent (no EXIF block, or a block
without the tag) or reading it raises one of the caught exceptions, the
image is left unrotated and `process_image` still succeeds: an
orientation-read failure never fails the call. -/
theorem C7_orientation_failure_nonfatal (img0 : PILImage) (m : String)
    (hexif : img0.exif = ExifRead.raises ∨ img0.exif = ExifRead.noExif ∨
      img0.exif = ExifRead.noTag) :
    applyExifOrientation img0 = img0 ∧
      ∃ out, process_image (some img0) m = Except.ok out := by
  constructor
  · unfold applyExifOrientation
    rcases hexif with he | he | he <;> rw [he]
  · exact ⟨_, rfl⟩

/-- Witness for C7 at a 640x480 P input whose orientation read raises. -/
theorem C7_witness :
    ((⟨640, 480, Mode.P, ExifRead.raises⟩ : PILImage).exif = ExifRead.raises ∨
        (⟨640, 480, Mode.P, ExifRead.raises⟩ : PILImage).exif = ExifRead.noExif ∨
        (⟨640, 480, Mode.P, ExifRead.raises⟩ : PILImage).exif = ExifRead.noTag) ∧
      (applyExifOrientation ⟨640, 480, Mode.P, ExifRead.raises⟩ =
          ⟨640, 480, Mode.P, ExifRead.raises⟩ ∧
        ∃ out, process_image (some ⟨640, 480, Mode.P, ExifRead.raises⟩) "bottom" =
          Except.ok out) :=
  ⟨Or.inl rfl,
    C7_orientation_failure_nonfatal ⟨640, 480, Mode.P, ExifRead.raises⟩ "bottom"
      (Or.inl rfl)⟩

/-- Claim C8: undecodable input bytes fail the call with a decode error,
for every crop mode; the error result carries no JPEG bytes and no
metadata record. -/
theorem C8_decode_failure_no_output (m : String) :
    process_image none m = Except.error ProcessError.decodeError :=
  rfl

/-- Claim C9: a source whose aspect ratio is exactly 9/16 (width 9k,
height 16k, k ≥ 1) is not cropped at all: the crop rectangle is the full
frame at offset (0, 0), for every crop mode. -/
theorem C9_exact_ratio_full_frame (k : Nat) (m : String) (hk : 1 ≤ k) :
    cropRect (9 * k) (16 * k) m =
      { x := 0, y := 0, width := ((9 * k : Nat) : Int),
        height := ((16 * k : Nat) : Int) } := by
  rw [cropRect_eq_spec (9 * k) (16 * k) (by omega) m]
  unfold cropRectSpec
  rw [if_neg (by omega)]
  have h1 : 16 * (9 * k) / 9 = 16 * k := by omega
  rw [h1]
  by_cases hm1 : m = "top"
  · rw [if_pos hm1]
  · rw [if_neg hm1]
    by_cases hm2 : m = "bottom"
    · rw [if_pos hm2]
      simp
    · rw [if_neg hm2]
      simp

/-- Witness for C9 at k = 2, an 18x32 source. -/
theorem C9_witness :
    1 ≤ 2 ∧
      cropRect (9 * 2) (16 * 2) "sideways" =
        { x := 0, y := 0, width := ((9 * 2 : Nat) : Int),
          height := ((16 * 2 : Nat) : Int) } :=
  ⟨by norm_num, C9_exact_ratio_full_frame 2 "sideways" (by norm_num)⟩

/-- Claim C10: for every source of size at least 1x1 and every crop mode,
the crop rectangle lies within the source bounds: non-negative offsets and
`x + width ≤ w`, `y + height ≤ h`, so the crop never reads outside the
raster. -/
theorem C10_crop_within_bounds (w h : Nat) (m : String)
    (hw : 1 ≤ w) (hh : 1 ≤ h) :
    0 ≤ (cropRect w h m).x ∧ 0 ≤ (cropRect w h m).y ∧
      (cropRect w h m).x + (cropRect w h m).width ≤ (w : Int) ∧
      (cropRect w h m).y + (cropRect w h m).height ≤ (h : Int) := by
  rw [cropRect_eq_spec w h hh m]
  unfold cropRectSpec
  by_cases hc : 16 * w > 9 * h
  · rw [if_pos hc]
    refine ⟨?_, ?_, ?_, ?_⟩ <;> simp only [] <;> omega
  · rw [if_neg hc]
    by_cases hm1 : m = "top"
    · rw [if_pos hm1]
      refine ⟨?_, ?_, ?_, ?_⟩ <;> simp only [] <;> omega
    · rw [if_neg hm1]
      by_cases hm2 : m = "bottom"
      · rw [if_pos hm2]
        refine ⟨?_, ?_, ?_, ?_⟩ <;> simp only [] <;> omega
      · rw [if_neg hm2]
        refine ⟨?_, ?_, ?_, ?_⟩ <;> simp only [] <;> omega

/-- Witness for C10 at a 123x456 source with mode "bottom". -/
theorem C10_witness :
    1 ≤ 123 ∧ 1 ≤ 456 ∧
      (0 ≤ (cropRect 123 456 "bottom").x ∧ 0 ≤ (cropRect 123 456 "bottom").y ∧
        (cropRect 123 456 "bottom").x + (cropRect 123 456 "bottom").width ≤
          ((123 : Nat) : Int) ∧
        (cropRect 123 456 "bottom").y + (cropRect 123 456 "bottom").height ≤
          ((456 : Nat) : Int)) :=
  ⟨by norm_num, by norm_num,
    C10_crop_within_bounds 123 456 "bottom" (by norm_num) (by norm_num)⟩
